import Mathlib

set_option maxRecDepth 10000

/-
  Shallow embedding of `src/app.py` (Flask backend of the AI learning
  platform).  The relational store is modelled as explicit state
  (`DBState`); the external OpenAI chat-completion call is modelled as an
  oracle value (`AIOutcome`) passed to the handlers that invoke it;
  `db.Float` progress values, which only ever hold the constant 0.0 in this
  program, are modelled as rationals; `db.DateTime` server timestamps are
  modelled as an abstract tick counter.  Escapes `\x27` in string literals
  denote the ASCII apostrophe appearing in the Python source text.
-/

namespace App

/-- Learner model, src/app.py lines 33-39. -/
structure Learner where
  id : Nat
  username : String
  learning_goals : String
  experience_level : String

deriving instance DecidableEq, Repr for Learner

/-- LearningSession model, src/app.py lines 41-47. -/
structure LearningSession where
  id : Nat
  learner_id : Nat
  topic : String
  content : String
  progress : Rat
  created_at : Nat

deriving instance DecidableEq, Repr for LearningSession

/-- KnowledgeGap model, src/app.py lines 49-54. -/
structure KnowledgeGap where
  id : Nat
  learner_id : Nat
  topic : String
  difficulty_level : String
  identified_at : Nat

deriving instance DecidableEq, Repr for KnowledgeGap

/-- The relational store: the three tables plus auto-increment counters for
the two primary keys that get assigned in this program, and the clock used
for server-side timestamps. -/
structure DBState where
  learners : List Learner
  sessions : List LearningSession
  gaps : List KnowledgeGap
  nextLearnerId : Nat
  nextSessionId : Nat
  now : Nat

deriving instance DecidableEq, Repr for DBState

/-- The store right after `db.drop_all(); db.create_all()` at process start
(src/app.py lines 57-65): all three tables empty, ids starting at 1. -/
def initState : DBState :=
  { learners := [], sessions := [], gaps := [], nextLearnerId := 1,
    nextSessionId := 1, now := 0 }

/-- `Learner.query.get(learner_id)` - primary-key lookup. -/
def DBState.getLearner (s : DBState) (id : Nat) : Option Learner :=
  s.learners.find? fun l => l.id == id

/-- `Learner.query.filter_by(username=u).first()`. -/
def DBState.findByUsername (s : DBState) (u : String) : Option Learner :=
  s.learners.find? fun l => l.username == u

/-- Outcome of one invocation of the external chat-completion dependency
(opaque collaborator: prompt in, text out, or failure), combined with the
credential check `if client.api_key` that guards the call. -/
inductive AIOutcome where
  | noKey
  | ok (text : String)
  | fail

deriving instance DecidableEq, Repr for AIOutcome

/-- Serialized session as produced by the session listing
(src/app.py lines 104-110). -/
structure SessionOut where
  id : Nat
  topic : String
  content : String
  progress : Rat
  created_at : Nat

deriving instance DecidableEq, Repr for SessionOut

/-- Serialized knowledge gap as produced by the gap listing
(src/app.py lines 216-221). -/
structure GapOut where
  id : Nat
  topic : String
  difficulty_level : String
  identified_at : Nat

deriving instance DecidableEq, Repr for GapOut

/-- JSON responses of the API handlers, one constructor per
`jsonify(...), code` site in src/app.py. -/
inductive Response where
  | learnerCreated (id : Nat) (username learning_goals experience_level : String)
  | badRequest (error : String)
  | serverError (error : String)
  | notFound (error : String)
  | sessionList (items : List SessionOut)
  | sessionCreated (id : Nat) (topic content : String) (progress : Rat) (message : String)
  | gapList (items : List GapOut)
  | genSuccess (content : String) (session_id : Nat) (message : String)
  | genError (error message : String)

deriving instance DecidableEq, Repr for Response

/-- HTTP status code attached to each `jsonify` site. -/
def Response.status : Response → Nat
  | .learnerCreated .. => 201
  | .badRequest _ => 400
  | .serverError _ => 500
  | .notFound _ => 404
  | .sessionList _ => 200
  | .sessionCreated .. => 201
  | .gapList _ => 200
  | .genSuccess .. => 200
  | .genError .. => 500

/-- The `success` JSON field, present only on the standalone
generate-content responses (src/app.py lines 344-357). -/
def Response.successFlag : Response → Option Bool
  | .genSuccess .. => some true
  | .genError .. => some false
  | _ => none

/-- Parsed JSON body of POST /api/learners.  The username is read by
direct subscript of the data dict (a raised KeyError when the key is
absent), the other two via .get with defaults (src/app.py lines 76-83). -/
structure CreateLearnerBody where
  username : Option String
  learning_goals : Option String
  experience_level : Option String

/-- Parsed JSON body of POST /api/learners/{id}/sessions
(src/app.py line 124). -/
structure CreateSessionBody where
  topic : Option String

/-- Parsed JSON body of POST /api/generate-content
(src/app.py line 230). -/
structure GenerateContentBody where
  learner_id : Option Nat

/-- Fallback session content when no API key is configured,
src/app.py lines 158-174.  Interpolates topic, experience level and
learning goals - but not the username. -/
def noKeyContent (topic goals level : String) : String :=
  "🎯 **Welcome to Your Personalized Learning Session!**\n\n**Topic:** " ++ topic
  ++ "\n**Tailored for:** " ++ level ++ " level in " ++ goals
  ++ "\n\n📚 **What You\x27ll Learn:**\nThis session is specifically designed for your current skill level and learning goals.\n\n💡 **Key Focus Areas:**\n- Core concepts in "
  ++ goals
  ++ "\n- Practical applications you can use immediately\n- Step-by-step guidance for "
  ++ level
  ++ " learners\n\n🛠️ **Next Steps:**\nReady to dive deeper? Use the \x27Generate Practice Content\x27 button to get personalized exercises!\n\n*Note: Connect your OpenAI API key for fully personalized AI-generated content.*"

/-- Fallback session content when the OpenAI call raises,
src/app.py lines 177-188.  Interpolates topic, username, experience level
and learning goals. -/
def aiErrorContent (topic username goals level : String) : String :=
  "🎯 **Learning Session: " ++ topic ++ "**\n\nWelcome " ++ username
  ++ "! This session is designed for your " ++ level ++ " level in " ++ goals
  ++ ".\n\n📚 **Session Overview:**\nLet\x27s explore " ++ topic
  ++ " with content tailored specifically for you.\n\n💡 **Learning Path:**\nWe\x27ll build on your current knowledge and help you advance to the next level.\n\n🛠️ **Ready to Practice?**\nClick \x27Generate Practice Content\x27 for personalized exercises!"

/-- Content stored by create_session, by AI outcome: live text on success,
the two fallback templates otherwise (src/app.py lines 127-188). -/
def sessionContent (ai : AIOutcome) (topic : String) (l : Learner) : String :=
  match ai with
  | .ok text => text
  | .noKey => noKeyContent topic l.learning_goals l.experience_level
  | .fail => aiErrorContent topic l.username l.learning_goals l.experience_level

/-- POST /api/learners handler, src/app.py lines 70-98.  A missing
`username` key raises KeyError inside the blanket try, answered as a
generic 500. -/
def create_learner (s : DBState) (body : CreateLearnerBody) : Response × DBState :=
  match body.username with
  | none => (.serverError "Failed to create learner", s)
  | some u =>
    match s.findByUsername u with
    | some _ => (.badRequest "Username already exists", s)
    | none =>
      let learner : Learner :=
        { id := s.nextLearnerId, username := u,
          learning_goals := body.learning_goals.getD "",
          experience_level := body.experience_level.getD "beginner" }
      let s' := { s with learners := s.learners ++ [learner],
                         nextLearnerId := s.nextLearnerId + 1 }
      (.learnerCreated learner.id learner.username learner.learning_goals
        learner.experience_level, s')

/-- Serialization of one stored session in the listing. -/
def sessionOut (ss : LearningSession) : SessionOut :=
  { id := ss.id, topic := ss.topic, content := ss.content,
    progress := ss.progress, created_at := ss.created_at }

/-- GET /api/learners/{id}/sessions handler, src/app.py lines 100-113.
No existence check on the learner id. -/
def get_sessions (s : DBState) (learner_id : Nat) : Response × DBState :=
  (.sessionList (((s.sessions.filter fun ss => ss.learner_id == learner_id).map sessionOut)), s)

/-- POST /api/learners/{id}/sessions handler, src/app.py lines 115-210. -/
def create_session (s : DBState) (learner_id : Nat) (body : CreateSessionBody)
    (ai : AIOutcome) : Response × DBState :=
  match s.getLearner learner_id with
  | none => (.notFound "Learner not found", s)
  | some learner =>
    let topic := body.topic.getD "Personalized Learning Session"
    let ai_content := sessionContent ai topic learner
    let sess : LearningSession :=
      { id := s.nextSessionId, learner_id := learner_id, topic := topic,
        content := ai_content, progress := 0, created_at := s.now }
    let s' := { s with sessions := s.sessions ++ [sess],
                       nextSessionId := s.nextSessionId + 1, now := s.now + 1 }
    (.sessionCreated sess.id sess.topic sess.content sess.progress
      "🎉 Learning session created successfully!", s')

/-- Serialization of one stored knowledge gap in the listing. -/
def gapOut (g : KnowledgeGap) : GapOut :=
  { id := g.id, topic := g.topic, difficulty_level := g.difficulty_level,
    identified_at := g.identified_at }

/-- GET /api/learners/{id}/knowledge-gaps handler, src/app.py
lines 212-224. -/
def get_knowledge_gaps (s : DBState) (learner_id : Nat) : Response × DBState :=
  (.gapList (((s.gaps.filter fun g => g.learner_id == learner_id).map gapOut)), s)

/-- Fallback practice content when no API key is configured,
src/app.py lines 281-309. -/
def genNoKeyContent (username goals level : String) : String :=
  "🎯 **Personalized Practice Content for " ++ username
  ++ "**\n\n**Tailored for:** " ++ level ++ " level in " ++ goals
  ++ "\n\n## 🛠️ **Exercise 1: Hands-On Project**\n⏱️ *Time: 30-45 minutes*\n\nCreate a practical project that applies "
  ++ goals
  ++ " concepts. Start with the fundamentals and build something you can use in real life.\n\n🏆 **Success Criteria:** Complete a working example that demonstrates your understanding.\n\n## 🧩 **Exercise 2: Problem-Solving Challenge**  \n⏱️ *Time: 20-30 minutes*\n\nAnalyze a real-world scenario related to "
  ++ goals
  ++ ". Break down the problem, identify key components, and propose a solution.\n\n🏆 **Success Criteria:** Present a clear solution with reasoning.\n\n## 🎮 **Exercise 3: Interactive Learning Game**\n⏱️ *Time: 15-25 minutes*\n\nEngage with "
  ++ goals
  ++ " concepts through an interactive challenge. Test your knowledge while having fun!\n\n🏆 **Success Criteria:** Complete the challenge and identify areas for improvement.\n\n---\n💡 **Pro Tip:** Each exercise builds on the previous one. Complete them in order for the best learning experience!\n\n*Connect your OpenAI API key for fully personalized, detailed exercises!*"

/-- Fallback practice content when the OpenAI call raises,
src/app.py lines 313-331. -/
def genErrorContent (username goals level : String) : String :=
  "✨ **Personalized Practice Content Generated for " ++ username
  ++ "!**\n\n🎯 **Tailored for your " ++ level ++ " level in " ++ goals
  ++ "**\n\n## 📚 **Practice Exercises:**\n\n### 1. 🛠️ **Concept Application**\nApply the key principles we\x27ve discussed to solve a real-world scenario in "
  ++ goals
  ++ ".\n\n### 2. 🧠 **Critical Thinking Challenge**  \nAnalyze the relationship between different concepts and explain how they connect in practical applications.\n\n### 3. 🎯 **Practical Project**\nCreate a small project that demonstrates your understanding of "
  ++ goals ++ " at the " ++ level
  ++ " level.\n\n---\n💡 **Each exercise is designed to match your current skill level and learning goals!**\n\n🚀 **Ready to level up?** Complete these exercises and track your progress."

/-- Content produced by the standalone generate-content endpoint, by AI
outcome (src/app.py lines 245-331). -/
def genContentText (ai : AIOutcome) (l : Learner) : String :=
  match ai with
  | .ok text => text
  | .noKey => genNoKeyContent l.username l.learning_goals l.experience_level
  | .fail => genErrorContent l.username l.learning_goals l.experience_level

/-- POST /api/generate-content handler, src/app.py lines 226-357.
When the referenced learner is absent a demo learner is inserted with no
username pre-check; the unique constraint on `Learner.username`
(src/app.py line 35) makes that commit fail when a learner named
"Demo User" already exists, and the blanket except answers 500 with
`success: false`, persisting nothing. -/
def generate_content (s : DBState) (body : GenerateContentBody)
    (ai : AIOutcome) : Response × DBState :=
  let learner_id := body.learner_id.getD 1
  match s.getLearner learner_id with
  | some learner =>
    let c := genContentText ai learner
    let sess : LearningSession :=
      { id := s.nextSessionId, learner_id := learner.id,
        topic := "AI-Generated Practice Content", content := c,
        progress := 0, created_at := s.now }
    let s' := { s with sessions := s.sessions ++ [sess],
                       nextSessionId := s.nextSessionId + 1, now := s.now + 1 }
    (.genSuccess c sess.id
      "🎉 Personalized practice content generated successfully!", s')
  | none =>
    match s.findByUsername "Demo User" with
    | some _ =>
      (.genError "Failed to generate content"
        "❌ Sorry, there was an error generating your practice content. Please try again.", s)
    | none =>
      let learner : Learner :=
        { id := s.nextLearnerId, username := "Demo User",
          learning_goals := "General Learning",
          experience_level := "intermediate" }
      let s1 := { s with learners := s.learners ++ [learner],
                         nextLearnerId := s.nextLearnerId + 1 }
      let c := genContentText ai learner
      let sess : LearningSession :=
        { id := s1.nextSessionId, learner_id := learner.id,
          topic := "AI-Generated Practice Content", content := c,
          progress := 0, created_at := s1.now }
      let s2 := { s1 with sessions := s1.sessions ++ [sess],
                          nextSessionId := s1.nextSessionId + 1, now := s1.now + 1 }
      (.genSuccess c sess.id
        "🎉 Personalized practice content generated successfully!", s2)

/-- One API request, with the AI oracle outcome attached to the two
requests that invoke the external call.  The static-asset and health
endpoints touch no store state and are omitted. -/
inductive Request where
  | createLearner (body : CreateLearnerBody)
  | getSessions (learner_id : Nat)
  | createSession (learner_id : Nat) (body : CreateSessionBody) (ai : AIOutcome)
  | getKnowledgeGaps (learner_id : Nat)
  | generateContent (body : GenerateContentBody) (ai : AIOutcome)

/-- Dispatch of one request to its handler. -/
def exec (s : DBState) : Request → Response × DBState
  | .createLearner b => create_learner s b
  | .getSessions i => get_sessions s i
  | .createSession i b ai => create_session s i b ai
  | .getKnowledgeGaps i => get_knowledge_gaps s i
  | .generateContent b ai => generate_content s b ai

/-- Run a sequence of requests from a state. -/
def run (s : DBState) : List Request → DBState
  | [] => s
  | r :: rs => run (exec s r).2 rs

/-- States reachable from process start by some request sequence. -/
def Reachable (s : DBState) : Prop := ∃ rs, s = run initState rs

/-- Substring containment: `sub` occurs contiguously inside `s`, stated as
list-infix on the underlying character data. -/
def Contains (s sub : String) : Prop :=
  ∃ l r, l ++ sub.data ++ r = s.data

instance (s sub : String) : Decidable (Contains s sub) :=
  decidable_of_iff (sub.data <:+: s.data) Iff.rfl

/-- Usernames column of the learner table. -/
def usernames (s : DBState) : List String :=
  s.learners.map fun l => l.username

/-- Learner-id column and counter are in auto-increment shape: ids are
exactly 1..n in insertion order and the counter is n+1. -/
def IdsOk (s : DBState) : Prop :=
  (s.learners.map fun l => l.id) = List.range' 1 s.learners.length ∧
  s.nextLearnerId = s.learners.length + 1

/-- The demo learner inserted by the standalone generate-content endpoint
on a fresh store (src/app.py lines 236-240), with the id the
auto-increment counter of the fresh store assigns. -/
def demoLearner : Learner :=
  { id := 1, username := "Demo User", learning_goals := "General Learning",
    experience_level := "intermediate" }

/-- Repeated calls of the standalone generate-content endpoint with a body
holding no learner id, one oracle outcome per call. -/
def iterGen (s : DBState) : List AIOutcome → DBState
  | [] => s
  | a :: rest => iterGen (generate_content s ⟨none⟩ a).2 rest

/-- Sample store holding one registered learner, used to evaluate the
theorems on concrete input. -/
def sampleState : DBState :=
  { learners := [⟨1, "alice", "Python", "beginner"⟩], sessions := [],
    gaps := [], nextLearnerId := 2, nextSessionId := 1, now := 0 }

/-- Request sequence registering one learner. -/
def regReqs : List Request := [.createLearner ⟨some "alice", none, none⟩]

/-- The store reached by registering one learner. -/
def regState : DBState := run initState regReqs

/-- Request sequence registering a learner named "Demo User" (as second
learner, so with id 2). -/
def conflictReqs : List Request :=
  [.createLearner ⟨some "alice", none, none⟩, .createLearner ⟨some "Demo User", none, none⟩]

/-- Request sequence registering a learner and creating one session. -/
def frameReqs : List Request :=
  [.createLearner ⟨some "bob", none, none⟩, .createSession 1 ⟨none⟩ (.ok "text")]

theorem contains_self (s : String) : Contains s s :=
  ⟨[], [], by simp⟩

theorem contains_left {a sub : String} (h : Contains a sub) (b : String) :
    Contains (a ++ b) sub := by
  obtain ⟨l, r, hl⟩ := h
  exact ⟨l, r ++ b.data, by rw [String.data_append, ← hl]; simp⟩

theorem contains_right (a : String) {b sub : String} (h : Contains b sub) :
    Contains (a ++ b) sub := by
  obtain ⟨l, r, hl⟩ := h
  exact ⟨a.data ++ l, r, by rw [String.data_append, ← hl]; simp⟩

theorem contains_ne_empty {s sub : String} (h : Contains s sub)
    (hsub : sub ≠ "") : s ≠ "" := by
  obtain ⟨l, r, hl⟩ := h
  intro hs
  rw [hs] at hl
  simp at hl
  exact hsub (String.ext hl.2.1)

/-- No handler ever writes to the knowledge-gap table. -/
theorem exec_gaps (s : DBState) (r : Request) : (exec s r).2.gaps = s.gaps := by
  cases r <;>
    simp only [exec, create_learner, get_sessions, create_session,
      get_knowledge_gaps, generate_content] <;>
    (repeat' split) <;> rfl

/-- Every handler leaves the previously stored learner rows in place: the
old learner table is a prefix of the new one. -/
theorem exec_keeps_learners (s : DBState) (r : Request) :
    s.learners <+: (exec s r).2.learners := by
  cases r <;>
    simp only [exec, create_learner, get_sessions, create_session,
      get_knowledge_gaps, generate_content] <;>
    (repeat' split) <;>
    first
      | exact List.prefix_rfl
      | exact List.prefix_append _ _

/-- Every handler leaves the previously stored session rows in place: the
old session table is a prefix of the new one. -/
theorem exec_keeps_sessions (s : DBState) (r : Request) :
    s.sessions <+: (exec s r).2.sessions := by
  cases r <;>
    simp only [exec, create_learner, get_sessions, create_session,
      get_knowledge_gaps, generate_content] <;>
    (repeat' split) <;>
    first
      | exact List.prefix_rfl
      | exact List.prefix_append _ _

/-- One request preserves distinctness of usernames: both insertion sites
only insert after a username lookup came back empty. -/
theorem exec_usernames_nodup {s : DBState} (r : Request)
    (h : (usernames s).Nodup) : (usernames (exec s r).2).Nodup := by
  cases r with
  | getSessions i => exact h
  | getKnowledgeGaps i => exact h
  | createSession i b ai =>
    simp only [exec, create_session]
    split
    · exact h
    · exact h
  | createLearner b =>
    simp only [exec, create_learner]
    split
    · exact h
    · split
      · exact h
      · rename_i hf
        simp only [usernames] at h ⊢
        simp only [List.map_append, List.map_cons, List.map_nil]
        simp [List.nodup_append, h]
        intro x hx
        have := List.find?_eq_none.mp hf x hx
        simpa using this
  | generateContent b ai =>
    simp only [exec, generate_content]
    split
    · exact h
    · split
      · exact h
      · rename_i hf
        simp only [usernames] at h ⊢
        simp only [List.map_append, List.map_cons, List.map_nil]
        simp [List.nodup_append, h]
        intro x hx
        have := List.find?_eq_none.mp hf x hx
        simpa using this

/-- In every reachable store the usernames are pairwise distinct. -/
theorem reachable_usernames_nodup {s : DBState} (h : Reachable s) :
    (usernames s).Nodup := by
  obtain ⟨rs, rfl⟩ := h
  suffices H : ∀ s0 : DBState, (usernames s0).Nodup → (usernames (run s0 rs)).Nodup from
    H initState (by simp [usernames, initState])
  induction rs with
  | nil => exact fun s0 h0 => h0
  | cons r rs ih => exact fun s0 h0 => ih _ (exec_usernames_nodup r h0)

/-- One request preserves the auto-increment shape of the learner table. -/
theorem exec_idsok {s : DBState} (r : Request) (h : IdsOk s) : IdsOk (exec s r).2 := by
  obtain ⟨hmap, hnext⟩ := h
  cases r with
  | getSessions i => exact ⟨hmap, hnext⟩
  | getKnowledgeGaps i => exact ⟨hmap, hnext⟩
  | createSession i b ai =>
    simp only [exec, create_session]
    split
    · exact ⟨hmap, hnext⟩
    · exact ⟨hmap, hnext⟩
  | createLearner b =>
    simp only [exec, create_learner]
    split
    · exact ⟨hmap, hnext⟩
    · split
      · exact ⟨hmap, hnext⟩
      · constructor
        · simp only [IdsOk, List.map_append, List.map_cons, List.map_nil, hmap,
            List.length_append, List.length_cons, List.length_nil, hnext]
          rw [List.range'_concat]
          simp [Nat.add_comm]
        · simp [hnext]
  | generateContent b ai =>
    simp only [exec, generate_content]
    split
    · exact ⟨hmap, hnext⟩
    · split
      · exact ⟨hmap, hnext⟩
      · constructor
        · simp only [IdsOk, List.map_append, List.map_cons, List.map_nil, hmap,
            List.length_append, List.length_cons, List.length_nil, hnext]
          rw [List.range'_concat]
          simp [Nat.add_comm]
        · simp [hnext]

/-- Every reachable store has learner ids exactly 1..n in insertion
order. -/
theorem reachable_idsok {s : DBState} (h : Reachable s) : IdsOk s := by
  obtain ⟨rs, rfl⟩ := h
  suffices H : ∀ s0 : DBState, IdsOk s0 → IdsOk (run s0 rs) from
    H initState ⟨rfl, rfl⟩
  induction rs with
  | nil => exact fun s0 h0 => h0
  | cons r rs ih => exact fun s0 h0 => ih _ (exec_idsok r h0)

/-- One request preserves the invariant that all stored sessions carry the
initial progress 0.0: both session-insertion sites write progress 0.0 and
nothing updates a stored row. -/
theorem exec_progress {s : DBState} (r : Request)
    (h : ∀ ss ∈ s.sessions, ss.progress = 0) :
    ∀ ss ∈ (exec s r).2.sessions, ss.progress = 0 := by
  cases r <;>
    simp only [exec, create_learner, get_sessions, create_session,
      get_knowledge_gaps, generate_content] <;>
    (repeat' split) <;>
    first
      | exact h
      | (intro ss hss
         rcases List.mem_append.mp hss with hss | hss
         · exact h ss hss
         · simp only [List.mem_singleton] at hss
           subst hss
           rfl)

/-- In every reachable store all sessions still carry progress 0.0. -/
theorem reachable_progress {s : DBState} (h : Reachable s) :
    ∀ ss ∈ s.sessions, ss.progress = 0 := by
  obtain ⟨rs, rfl⟩ := h
  suffices H : ∀ s0 : DBState, (∀ ss ∈ s0.sessions, ss.progress = 0) →
      ∀ ss ∈ (run s0 rs).sessions, ss.progress = 0 from
    H initState (by intro ss hss; simp [initState] at hss)
  induction rs with
  | nil => exact fun s0 h0 => h0
  | cons r rs ih => exact fun s0 h0 => ih _ (exec_progress r h0)

/-- In every reachable store the knowledge-gap table is empty. -/
theorem reachable_gaps_nil {s : DBState} (h : Reachable s) : s.gaps = [] := by
  obtain ⟨rs, rfl⟩ := h
  suffices H : ∀ s0 : DBState, s0.gaps = [] → (run s0 rs).gaps = [] from
    H initState rfl
  induction rs with
  | nil => exact fun s0 h0 => h0
  | cons r rs ih => exact fun s0 h0 => ih _ ((exec_gaps s0 r).trans h0)

/-- In a reachable store, if learner id 1 is absent then no learner was
ever registered: the learner table is empty and the id counter still
stands at 1. -/
theorem reachable_getLearner_one_none {s : DBState} (h : Reachable s)
    (h1 : s.getLearner 1 = none) : s.learners = [] ∧ s.nextLearnerId = 1 := by
  obtain ⟨hmap, hnext⟩ := reachable_idsok h
  have hno : ∀ l ∈ s.learners, l.id ≠ 1 := by
    intro l hl
    have := List.find?_eq_none.mp h1 l hl
    simpa using this
  cases hls : s.learners with
  | nil => refine ⟨rfl, ?_⟩; rw [hnext, hls]; rfl
  | cons a tl =>
    exfalso
    rw [hls] at hmap
    simp only [List.map_cons, List.length_cons, List.range'_succ] at hmap
    have ha : a.id = 1 := (List.cons.injEq _ _ _ _).mp hmap |>.1
    exact hno a (hls ▸ List.mem_cons_self a tl) ha

/-- A list of learners with pairwise-distinct usernames, one of which has
username `u`, has exactly one entry with username `u`. -/
theorem filter_username_length {u : String} :
    ∀ {ls : List Learner}, (ls.map fun l => l.username).Nodup →
      (∃ l ∈ ls, l.username = u) →
      (ls.filter fun l => l.username == u).length = 1 := by
  intro ls
  induction ls with
  | nil => intro _ h; simp at h
  | cons a tl ih =>
    intro hnd hex
    simp only [List.map_cons, List.nodup_cons] at hnd
    obtain ⟨ha, hnd⟩ := hnd
    by_cases hau : a.username = u
    · have htl : tl.filter (fun l => l.username == u) = [] := by
        rw [List.filter_eq_nil_iff]
        intro x hx
        simp only [beq_iff_eq]
        intro hxu
        exact ha (List.mem_map.mpr ⟨x, hx, by rw [hxu, hau]⟩)
      simp [List.filter_cons, hau, htl]
    · have hex' : ∃ l ∈ tl, l.username = u := by
        rcases hex with ⟨l, hl, hlu⟩
        rcases List.mem_cons.mp hl with rfl | hl
        · exact absurd hlu hau
        · exact ⟨l, hl, hlu⟩
      simp [List.filter_cons, hau, ih hnd hex']

/-- Claim C1, counterexample to the claim as stated: for an existing
learner with a configured-credential-free store (AI outcome `noKey`),
create_session answers 201 and persists the fallback content, but that
stored content does not reference the username "alice" - the
missing-credential template interpolates only topic, experience level and
learning goals. -/
theorem create_session_nokey_no_username :
    (create_session sampleState 1 ⟨some "Sorting"⟩ .noKey).1.status = 201 ∧
    ((create_session sampleState 1 ⟨some "Sorting"⟩ .noKey).2.sessions.map fun ss => ss.content) =
      [sessionContent .noKey "Sorting" ⟨1, "alice", "Python", "beginner"⟩] ∧
    ¬ Contains (sessionContent .noKey "Sorting" ⟨1, "alice", "Python", "beginner"⟩) "alice" :=
  ⟨rfl, rfl, by decide⟩

/-- Claim C1 (amended): for every create-session request for an existing
learner in which the external AI call fails or no API credential is
configured, the endpoint still returns a 201 success response and persists
a non-empty fallback content string that references the learning
goals, experience level and the requested topic of the learner; the username is
additionally referenced when the AI call fails, while the
missing-credential template omits it. -/
theorem create_session_fallback (s : DBState) (learner_id : Nat) (body : CreateSessionBody)
    (ai : AIOutcome) (l : Learner) (hl : s.getLearner learner_id = some l)
    (hai : ai = .noKey ∨ ai = .fail) :
    (create_session s learner_id body ai).1.status = 201 ∧
    (create_session s learner_id body ai).2.sessions = s.sessions ++
      [{ id := s.nextSessionId, learner_id := learner_id,
         topic := body.topic.getD "Personalized Learning Session",
         content := sessionContent ai (body.topic.getD "Personalized Learning Session") l,
         progress := 0, created_at := s.now }] ∧
    sessionContent ai (body.topic.getD "Personalized Learning Session") l ≠ "" ∧
    Contains (sessionContent ai (body.topic.getD "Personalized Learning Session") l)
      (body.topic.getD "Personalized Learning Session") ∧
    Contains (sessionContent ai (body.topic.getD "Personalized Learning Session") l)
      l.learning_goals ∧
    Contains (sessionContent ai (body.topic.getD "Personalized Learning Session") l)
      l.experience_level ∧
    (ai = .fail →
      Contains (sessionContent ai (body.topic.getD "Personalized Learning Session") l)
        l.username) := by
  have h201 : (create_session s learner_id body ai).1.status = 201 := by
    simp [create_session, hl, Response.status]
  have hsess : (create_session s learner_id body ai).2.sessions = s.sessions ++
      [{ id := s.nextSessionId, learner_id := learner_id,
         topic := body.topic.getD "Personalized Learning Session",
         content := sessionContent ai (body.topic.getD "Personalized Learning Session") l,
         progress := 0, created_at := s.now }] := by
    simp [create_session, hl]
  rcases hai with rfl | rfl
  · refine ⟨h201, hsess, ?_, ?_, ?_, ?_, fun h => AIOutcome.noConfusion h⟩
    · have hc : Contains
          (sessionContent .noKey (body.topic.getD "Personalized Learning Session") l)
          "\n**Tailored for:** " := by
        simp only [sessionContent, noKeyContent]
        repeat
          first
            | exact contains_right _ (contains_self _)
            | apply contains_left
      exact contains_ne_empty hc (by decide)
    · simp only [sessionContent, noKeyContent]
      repeat
        first
          | exact contains_right _ (contains_self _)
          | apply contains_left
    · simp only [sessionContent, noKeyContent]
      repeat
        first
          | exact contains_right _ (contains_self _)
          | apply contains_left
    · simp only [sessionContent, noKeyContent]
      repeat
        first
          | exact contains_right _ (contains_self _)
          | apply contains_left
  · refine ⟨h201, hsess, ?_, ?_, ?_, ?_, fun _ => ?_⟩
    · have hc : Contains
          (sessionContent .fail (body.topic.getD "Personalized Learning Session") l)
          "**\n\nWelcome " := by
        simp only [sessionContent, aiErrorContent]
        repeat
          first
            | exact contains_right _ (contains_self _)
            | apply contains_left
      exact contains_ne_empty hc (by decide)
    · simp only [sessionContent, aiErrorContent]
      repeat
        first
          | exact contains_right _ (contains_self _)
          | apply contains_left
    · simp only [sessionContent, aiErrorContent]
      repeat
        first
          | exact contains_right _ (contains_self _)
          | apply contains_left
    · simp only [sessionContent, aiErrorContent]
      repeat
        first
          | exact contains_right _ (contains_self _)
          | apply contains_left
    · simp only [sessionContent, aiErrorContent]
      repeat
        first
          | exact contains_right _ (contains_self _)
          | apply contains_left

/-- Evaluation of create_session_fallback on concrete input: the learner
"alice" of sampleState, topic "Graphs", with the AI call failing. -/
theorem create_session_fallback_witness :
    (create_session sampleState 1 ⟨some "Graphs"⟩ .fail).1.status = 201 ∧
    (create_session sampleState 1 ⟨some "Graphs"⟩ .fail).2.sessions = sampleState.sessions ++
      [{ id := 1, learner_id := 1, topic := "Graphs",
         content := sessionContent .fail "Graphs" ⟨1, "alice", "Python", "beginner"⟩,
         progress := 0, created_at := 0 }] ∧
    sessionContent .fail "Graphs" ⟨1, "alice", "Python", "beginner"⟩ ≠ "" ∧
    Contains (sessionContent .fail "Graphs" ⟨1, "alice", "Python", "beginner"⟩) "Graphs" ∧
    Contains (sessionContent .fail "Graphs" ⟨1, "alice", "Python", "beginner"⟩) "Python" ∧
    Contains (sessionContent .fail "Graphs" ⟨1, "alice", "Python", "beginner"⟩) "beginner" ∧
    (AIOutcome.fail = .fail →
      Contains (sessionContent .fail "Graphs" ⟨1, "alice", "Python", "beginner"⟩) "alice") :=
  create_session_fallback sampleState 1 ⟨some "Graphs"⟩ .fail
    ⟨1, "alice", "Python", "beginner"⟩ rfl (Or.inr rfl)

/-- Claim C2: creating a session for a learner id matching no stored
learner returns the 404 not-found result, leaves the store unchanged (zero
session rows written), and performs no content-generation attempt - the
outcome does not depend on the AI oracle at all. -/
theorem create_session_not_found (s : DBState) (learner_id : Nat)
    (body : CreateSessionBody) (ai ai' : AIOutcome)
    (h : s.getLearner learner_id = none) :
    (create_session s learner_id body ai).1 = .notFound "Learner not found" ∧
    (create_session s learner_id body ai).1.status = 404 ∧
    (create_session s learner_id body ai).2 = s ∧
    create_session s learner_id body ai = create_session s learner_id body ai' := by
  unfold create_session
  rw [h]
  exact ⟨rfl, rfl, rfl, rfl⟩

/-- Evaluation of create_session_not_found on concrete input: learner id 7
on the empty store. -/
theorem create_session_not_found_witness :
    (create_session initState 7 ⟨some "Graphs"⟩ .fail).1 = .notFound "Learner not found" ∧
    (create_session initState 7 ⟨some "Graphs"⟩ .fail).1.status = 404 ∧
    (create_session initState 7 ⟨some "Graphs"⟩ .fail).2 = initState ∧
    create_session initState 7 ⟨some "Graphs"⟩ .fail =
      create_session initState 7 ⟨some "Graphs"⟩ (.ok "x") :=
  create_session_not_found initState 7 ⟨some "Graphs"⟩ .fail (.ok "x") rfl

/-- Claim C3: registering a username already present in a reachable store
returns the duplicate-username rejection (HTTP 400, the conflict result)
with no partial write, and the store keeps exactly one learner with that
username; registering a fresh username creates and persists the learner
and returns its assigned id and stored fields. -/
theorem create_learner_spec (s : DBState) (body : CreateLearnerBody) (u : String)
    (hreach : Reachable s) (hu : body.username = some u) :
    ((∃ l ∈ s.learners, l.username = u) →
      (create_learner s body).1 = .badRequest "Username already exists" ∧
      (create_learner s body).1.status = 400 ∧
      (create_learner s body).2 = s ∧
      ((create_learner s body).2.learners.filter fun l => l.username == u).length = 1) ∧
    ((∀ l ∈ s.learners, l.username ≠ u) →
      (create_learner s body).1 = .learnerCreated s.nextLearnerId u
        (body.learning_goals.getD "") (body.experience_level.getD "beginner") ∧
      (create_learner s body).2.learners = s.learners ++
        [{ id := s.nextLearnerId, username := u,
           learning_goals := body.learning_goals.getD "",
           experience_level := body.experience_level.getD "beginner" }]) := by
  have hnd := reachable_usernames_nodup hreach
  constructor
  · rintro ⟨l, hl, hlu⟩
    have hfind : ∃ x, s.findByUsername u = some x := by
      cases hf : s.findByUsername u with
      | some x => exact ⟨x, rfl⟩
      | none =>
        exfalso
        have := List.find?_eq_none.mp hf l hl
        simp [hlu] at this
    obtain ⟨x, hf⟩ := hfind
    refine ⟨by simp [create_learner, hu, hf], by simp [create_learner, hu, hf, Response.status],
      by simp [create_learner, hu, hf], ?_⟩
    have h2 : (create_learner s body).2 = s := by simp [create_learner, hu, hf]
    rw [h2]
    exact filter_username_length hnd ⟨l, hl, hlu⟩
  · intro hfresh
    have hf : s.findByUsername u = none := by
      rw [DBState.findByUsername, List.find?_eq_none]
      intro x hx
      simpa using hfresh x hx
    refine ⟨by simp [create_learner, hu, hf], by simp [create_learner, hu, hf]⟩

/-- Evaluation of create_learner_spec on concrete input: the store where
"alice" is registered, once retrying "alice" (conflict branch) and once
with the fresh username "carol" (creation branch). -/
theorem create_learner_spec_witness :
    (create_learner regState ⟨some "alice", some "x", some "y"⟩).1 =
      .badRequest "Username already exists" ∧
    ((create_learner regState ⟨some "alice", some "x", some "y"⟩).2.learners.filter
      fun l => l.username == "alice").length = 1 ∧
    (create_learner regState ⟨some "carol", none, none⟩).1 =
      .learnerCreated 2 "carol" "" "beginner" := by
  have h1 := (create_learner_spec regState ⟨some "alice", some "x", some "y"⟩ "alice"
    ⟨regReqs, rfl⟩ rfl).1 (by decide)
  have h2 := (create_learner_spec regState ⟨some "carol", none, none⟩ "carol"
    ⟨regReqs, rfl⟩ rfl).2 (by decide)
  exact ⟨h1.1, h1.2.2.2, h2.1⟩

/-- Claim C4: on a reachable store where the default learner id 1 is
absent, the first generate-content call with no learner id in the body
auto-creates exactly the demo learner (fixed placeholder profile, id 1)
and succeeds, and any number of further such calls reuses that learner -
the learner table stays exactly [demoLearner]. -/
theorem generate_content_demo_idempotent (s : DBState) (hreach : Reachable s)
    (h1 : s.getLearner 1 = none) (ai : AIOutcome) (ais : List AIOutcome) :
    (generate_content s ⟨none⟩ ai).2.learners = [demoLearner] ∧
    (generate_content s ⟨none⟩ ai).2.getLearner 1 = some demoLearner ∧
    (generate_content s ⟨none⟩ ai).1.successFlag = some true ∧
    (iterGen (generate_content s ⟨none⟩ ai).2 ais).learners = [demoLearner] := by
  obtain ⟨hls, hnext⟩ := reachable_getLearner_one_none hreach h1
  have hf : s.findByUsername "Demo User" = none := by
    rw [DBState.findByUsername, hls]
    rfl
  have hid : (⟨none⟩ : GenerateContentBody).learner_id.getD 1 = 1 := rfl
  have hfirst : (generate_content s ⟨none⟩ ai).2.learners = [demoLearner] := by
    simp [generate_content, hid, h1, hf, hls, hnext, demoLearner]
  have hflag : (generate_content s ⟨none⟩ ai).1.successFlag = some true := by
    simp [generate_content, hid, h1, hf, Response.successFlag]
  have hstep : ∀ (t : DBState) (a : AIOutcome), t.learners = [demoLearner] →
      (generate_content t ⟨none⟩ a).2.learners = [demoLearner] := by
    intro t a ht
    have hg : t.getLearner 1 = some demoLearner := by
      simp [DBState.getLearner, ht, demoLearner]
    simp [generate_content, hg, ht]
  have hiter : ∀ (l : List AIOutcome) (t : DBState), t.learners = [demoLearner] →
      (iterGen t l).learners = [demoLearner] := by
    intro l
    induction l with
    | nil => exact fun t ht => ht
    | cons a rest ih => exact fun t ht => ih _ (hstep t a ht)
  refine ⟨hfirst, ?_, hflag, hiter ais _ hfirst⟩
  simp [DBState.getLearner, hfirst, demoLearner]

/-- Evaluation of generate_content_demo_idempotent on concrete input: the
empty store, one call followed by two more with varying AI outcomes. -/
theorem generate_content_demo_idempotent_witness :
    (generate_content initState ⟨none⟩ .noKey).2.learners = [demoLearner] ∧
    (generate_content initState ⟨none⟩ .noKey).2.getLearner 1 = some demoLearner ∧
    (generate_content initState ⟨none⟩ .noKey).1.successFlag = some true ∧
    (iterGen (generate_content initState ⟨none⟩ .noKey).2 [.fail, .ok "hi"]).learners =
      [demoLearner] :=
  generate_content_demo_idempotent initState ⟨[], rfl⟩ rfl .noKey [.fail, .ok "hi"]

/-- Claim C5, behavior of the code at the failing input: a create-learner
request without the username field is answered by the generic 500
"Failed to create learner" (the KeyError from the username subscript lands
in the blanket except), not by a structured 400 bad-request result as the
claim and the error taxonomy of the spec demand. -/
theorem create_learner_missing_username (s : DBState) (body : CreateLearnerBody)
    (h : body.username = none) :
    (create_learner s body).1 = .serverError "Failed to create learner" ∧
    (create_learner s body).1.status = 500 ∧
    (create_learner s body).2 = s := by
  unfold create_learner
  rw [h]
  exact ⟨rfl, rfl, rfl⟩

/-- Evaluation of create_learner_missing_username on concrete input: a
body with learning goals but no username, against sampleState. -/
theorem create_learner_missing_username_witness :
    (create_learner sampleState ⟨none, some "Rust", none⟩).1 =
      .serverError "Failed to create learner" ∧
    (create_learner sampleState ⟨none, some "Rust", none⟩).1.status = 500 ∧
    (create_learner sampleState ⟨none, some "Rust", none⟩).2 = sampleState :=
  create_learner_missing_username sampleState ⟨none, some "Rust", none⟩ rfl

/-- Claim C6: in every reachable store no KnowledgeGap record exists (no
operation ever creates one), so the knowledge-gap listing returns 200 with
the empty array for every learner id, leaving the store unchanged. -/
theorem knowledge_gaps_always_empty (s : DBState) (h : Reachable s) (learner_id : Nat) :
    s.gaps = [] ∧
    (get_knowledge_gaps s learner_id).1 = .gapList [] ∧
    (get_knowledge_gaps s learner_id).1.status = 200 ∧
    (get_knowledge_gaps s learner_id).2 = s := by
  have hg := reachable_gaps_nil h
  refine ⟨hg, ?_, rfl, rfl⟩
  unfold get_knowledge_gaps
  rw [hg]
  rfl

/-- Evaluation of knowledge_gaps_always_empty on concrete input: the store
reached by registering "alice", queried for learner id 1. -/
theorem knowledge_gaps_always_empty_witness :
    (run initState regReqs).gaps = [] ∧
    (get_knowledge_gaps (run initState regReqs) 1).1 = .gapList [] ∧
    (get_knowledge_gaps (run initState regReqs) 1).1.status = 200 ∧
    (get_knowledge_gaps (run initState regReqs) 1).2 = run initState regReqs :=
  knowledge_gaps_always_empty (run initState regReqs) ⟨regReqs, rfl⟩ 1

/-- Claim C7: the session listing answers 200 for every learner id -
registered or not - with exactly the stored sessions owned by that id,
the empty array when there are none, and it never mutates the store; in
particular it never returns 404, unlike session creation. -/
theorem get_sessions_spec (s : DBState) (learner_id : Nat) :
    (get_sessions s learner_id).1.status = 200 ∧
    (get_sessions s learner_id).1 =
      .sessionList ((s.sessions.filter fun ss => ss.learner_id == learner_id).map sessionOut) ∧
    ((∀ ss ∈ s.sessions, ss.learner_id ≠ learner_id) →
      (get_sessions s learner_id).1 = .sessionList []) ∧
    (get_sessions s learner_id).2 = s := by
  refine ⟨rfl, rfl, ?_, rfl⟩
  intro hnone
  have hf : s.sessions.filter (fun ss => ss.learner_id == learner_id) = [] := by
    rw [List.filter_eq_nil_iff]
    intro a ha
    simpa using hnone a ha
  simp [get_sessions, hf]

/-- Evaluation of get_sessions_spec on concrete input: the never-registered
learner id 5 on the empty store yields 200 with the empty array. -/
theorem get_sessions_spec_witness :
    (get_sessions initState 5).1.status = 200 ∧
    (get_sessions initState 5).1 = .sessionList [] :=
  ⟨(get_sessions_spec initState 5).1,
    (get_sessions_spec initState 5).2.2.1 (by simp [initState])⟩

/-- Claim C8: a session successfully created via create_session appears in
the subsequent session listing for the same learner, with id, topic,
content and progress identical to those of the creation response. -/
theorem session_round_trip (s : DBState) (learner_id : Nat) (body : CreateSessionBody)
    (ai : AIOutcome) (l : Learner) (hl : s.getLearner learner_id = some l) :
    ∃ out : SessionOut,
      (create_session s learner_id body ai).1 =
        .sessionCreated out.id out.topic out.content out.progress
          "🎉 Learning session created successfully!" ∧
      ∃ items, (get_sessions (create_session s learner_id body ai).2 learner_id).1 =
        .sessionList items ∧ out ∈ items := by
  refine ⟨sessionOut
    { id := s.nextSessionId, learner_id := learner_id,
      topic := body.topic.getD "Personalized Learning Session",
      content := sessionContent ai (body.topic.getD "Personalized Learning Session") l,
      progress := 0, created_at := s.now }, ?_, ?_⟩
  · simp [create_session, hl, sessionOut]
  · refine ⟨_, rfl, ?_⟩
    have h2 : (create_session s learner_id body ai).2.sessions = s.sessions ++
        [{ id := s.nextSessionId, learner_id := learner_id,
           topic := body.topic.getD "Personalized Learning Session",
           content := sessionContent ai (body.topic.getD "Personalized Learning Session") l,
           progress := 0, created_at := s.now }] := by
      simp [create_session, hl]
    rw [h2]
    apply List.mem_map_of_mem
    rw [List.mem_filter]
    refine ⟨by simp, by simp⟩

/-- Evaluation of session_round_trip on concrete input: a session created
for "alice" with live AI text is found again by the listing. -/
theorem session_round_trip_witness :
    ∃ out : SessionOut,
      (create_session sampleState 1 ⟨none⟩ (.ok "practice text")).1 =
        .sessionCreated out.id out.topic out.content out.progress
          "🎉 Learning session created successfully!" ∧
      ∃ items, (get_sessions (create_session sampleState 1 ⟨none⟩ (.ok "practice text")).2 1).1 =
        .sessionList items ∧ out ∈ items :=
  session_round_trip sampleState 1 ⟨none⟩ (.ok "practice text")
    ⟨1, "alice", "Python", "beginner"⟩ rfl

/-- Claim C9: no handler ever updates or deletes a stored Learner or
LearningSession row: after any request the old learner and session tables
are prefixes of the new ones (every previously stored record unchanged,
in place), and - before as after - every stored session still carries the
progress 0.0 assigned at creation. -/
theorem no_update_no_delete (s : DBState) (r : Request) (h : Reachable s) :
    s.learners <+: (exec s r).2.learners ∧
    s.sessions <+: (exec s r).2.sessions ∧
    (∀ ss ∈ s.sessions, ss.progress = 0) ∧
    (∀ ss ∈ (exec s r).2.sessions, ss.progress = 0) :=
  ⟨exec_keeps_learners s r, exec_keeps_sessions s r, reachable_progress h,
    exec_progress r (reachable_progress h)⟩

/-- Evaluation of no_update_no_delete on concrete input: a store with one
learner and one session, hit by a generate-content request. -/
theorem no_update_no_delete_witness :
    (run initState frameReqs).learners <+:
      (exec (run initState frameReqs) (.generateContent ⟨some 1⟩ .fail)).2.learners ∧
    (run initState frameReqs).sessions <+:
      (exec (run initState frameReqs) (.generateContent ⟨some 1⟩ .fail)).2.sessions ∧
    (∀ ss ∈ (run initState frameReqs).sessions, ss.progress = 0) ∧
    (∀ ss ∈ (exec (run initState frameReqs) (.generateContent ⟨some 1⟩ .fail)).2.sessions,
      ss.progress = 0) :=
  no_update_no_delete (run initState frameReqs) (.generateContent ⟨some 1⟩ .fail) ⟨frameReqs, rfl⟩

/-- Claim C10: when the learner id requested of the standalone
generate-content endpoint matches no stored learner but a learner named
"Demo User" already exists, the attempted demo-learner insert violates the
unique-username constraint and the endpoint answers 500 with
success=false, creating no learner and no session (store unchanged). -/
theorem generate_content_demo_conflict (s : DBState) (body : GenerateContentBody)
    (ai : AIOutcome) (habs : s.getLearner (body.learner_id.getD 1) = none)
    (l : Learner) (hmem : l ∈ s.learners) (hname : l.username = "Demo User") :
    (generate_content s body ai).1 = .genError "Failed to generate content"
      "❌ Sorry, there was an error generating your practice content. Please try again." ∧
    (generate_content s body ai).1.status = 500 ∧
    (generate_content s body ai).1.successFlag = some false ∧
    (generate_content s body ai).2 = s := by
  have hfind : ∃ x, s.findByUsername "Demo User" = some x := by
    cases hf : s.findByUsername "Demo User" with
    | some x => exact ⟨x, rfl⟩
    | none =>
      exfalso
      have := List.find?_eq_none.mp hf l hmem
      simp [hname] at this
  obtain ⟨x, hf⟩ := hfind
  exact ⟨by simp [generate_content, habs, hf],
    by simp [generate_content, habs, hf, Response.status],
    by simp [generate_content, habs, hf, Response.successFlag],
    by simp [generate_content, habs, hf]⟩

/-- Evaluation of generate_content_demo_conflict on concrete input: the
reachable store where "Demo User" is registered with id 2, asked to
generate content for the absent learner id 5. -/
theorem generate_content_demo_conflict_witness :
    (generate_content (run initState conflictReqs) ⟨some 5⟩ .noKey).1 =
      .genError "Failed to generate content"
        "❌ Sorry, there was an error generating your practice content. Please try again." ∧
    (generate_content (run initState conflictReqs) ⟨some 5⟩ .noKey).1.status = 500 ∧
    (generate_content (run initState conflictReqs) ⟨some 5⟩ .noKey).1.successFlag = some false ∧
    (generate_content (run initState conflictReqs) ⟨some 5⟩ .noKey).2 = run initState conflictReqs :=
  generate_content_demo_conflict (run initState conflictReqs) ⟨some 5⟩ .noKey (by decide)
    ⟨2, "Demo User", "", "beginner"⟩ (by decide) rfl

end App
